import Mathlib

/-!
Shallow embedding of the waypp Wayland/EGL wrapper library, together with
theorems settling the specification claims about it.

Each definition mirrors one function of the C++ source; comments cite the
source location.  Machine integers are modelled as `Nat`/`Int`; native
handles are modelled as `Nat` ids (0 standing for a null handle where the
code compares against null); fallible construction is modelled with
`Except`; the side effects of a handler (requests sent to the server) are
modelled as explicit action lists returned alongside the new state.
-/

namespace Waypp

/-! ## Seat capability handling (src/seat/seat.cc) -/

/-- Wayland seat capability bits (`enum wl_seat_capability`):
pointer = 1, keyboard = 2, touch = 4. -/
def WL_SEAT_CAPABILITY_POINTER : Nat := 1

def WL_SEAT_CAPABILITY_KEYBOARD : Nat := 2

def WL_SEAT_CAPABILITY_TOUCH : Nat := 4

/-- State of a `Seat` object: the last delivered capability mask and
whether each of the three device-handler `unique_ptr`s
(`pointer_`, `keyboard_`, `touch_`) currently holds a live object. -/
structure SeatState where
  capabilities : Nat
  pointer : Bool
  keyboard : Bool
  touch : Bool
  deriving Repr, DecidableEq

/-- `Seat::Seat` value-initialises all three handler pointers to null and
`capabilities_()` to 0. -/
def SeatState.init : SeatState :=
  { capabilities := 0, pointer := false, keyboard := false, touch := false }

/-- Result of one `Seat::handle_capabilities` call: the new state plus,
for each capability, whether this call executed the corresponding
`std::make_unique` (constructed a new live handler). -/
structure CapStep where
  state : SeatState
  created_pointer : Bool
  created_keyboard : Bool
  created_touch : Bool
  deriving Repr, DecidableEq

/-- `Seat::handle_capabilities` (seat.cc lines 46-71): stores `caps`, then
for each capability bit: if the bit is set and no handler exists,
construct one; else if the bit is clear and a handler exists, destroy it;
else leave the handler untouched. -/
def SeatState.handle_capabilities (s : SeatState) (caps : Nat) : CapStep :=
  let pbit := caps.testBit 0
  let kbit := caps.testBit 1
  let tbit := caps.testBit 2
  let pointerNew := if pbit && !s.pointer then true
    else if !pbit && s.pointer then false
    else s.pointer
  let createdP := pbit && !s.pointer
  let keyboardNew := if kbit && !s.keyboard then true
    else if !kbit && s.keyboard then false
    else s.keyboard
  let createdK := kbit && !s.keyboard
  let touchNew := if tbit && !s.touch then true
    else if !tbit && s.touch then false
    else s.touch
  let createdT := tbit && !s.touch
  { state :=
      { capabilities := caps, pointer := pointerNew, keyboard := keyboardNew,
        touch := touchNew }
    created_pointer := createdP
    created_keyboard := createdK
    created_touch := createdT }

/-- Process a whole sequence of capability-change notifications. -/
def SeatState.processTrace (s : SeatState) (trace : List Nat) : SeatState :=
  trace.foldl (fun st caps => (st.handle_capabilities caps).state) s

lemma SeatState.handle_capabilities_pointer (s : SeatState) (caps : Nat) :
    (s.handle_capabilities caps).state.pointer = caps.testBit 0 := by
  simp only [SeatState.handle_capabilities]
  cases h : caps.testBit 0 <;> cases hp : s.pointer <;> simp [h, hp]

lemma SeatState.handle_capabilities_keyboard (s : SeatState) (caps : Nat) :
    (s.handle_capabilities caps).state.keyboard = caps.testBit 1 := by
  simp only [SeatState.handle_capabilities]
  cases h : caps.testBit 1 <;> cases hp : s.keyboard <;> simp [h, hp]

lemma SeatState.handle_capabilities_touch (s : SeatState) (caps : Nat) :
    (s.handle_capabilities caps).state.touch = caps.testBit 2 := by
  simp only [SeatState.handle_capabilities]
  cases h : caps.testBit 2 <;> cases hp : s.touch <;> simp [h, hp]

lemma SeatState.processTrace_append_single (s : SeatState) (trace : List Nat)
    (caps : Nat) :
    s.processTrace (trace ++ [caps]) =
      ((s.processTrace trace).handle_capabilities caps).state := by
  simp [SeatState.processTrace, List.foldl_append]

/-! ## Egl context switching (unnamed EGL source, `Egl::make_current` etc.) -/

/-- `EGL_NO_CONTEXT` is the null context handle. -/
def EGL_NO_CONTEXT : Nat := 0

/-- The context handles owned by an `Egl` object (fields `context_`,
`resource_context_`, `texture_context_` of class `Egl`). -/
structure EglHandles where
  context : Nat
  resource_context : Nat
  texture_context : Nat
  deriving Repr, DecidableEq

/-- Result of one make-current-family call: the returned `bool`, the EGL
current context after the call (the global state read by
`eglGetCurrentContext` and written by `eglMakeCurrent`), and how many
times the call invoked the underlying `eglMakeCurrent` switch. -/
structure SwitchResult where
  ret : Bool
  current : Nat
  switches : Nat
  deriving Repr, DecidableEq

/-- `Egl::make_current`: if the current context differs from `context_`,
switch to `context_`; always return true. -/
def EglHandles.make_current (e : EglHandles) (cur : Nat) : SwitchResult :=
  if cur ≠ e.context then ⟨true, e.context, 1⟩ else ⟨true, cur, 0⟩

/-- `Egl::clear_current`: if a current context exists, switch to
`EGL_NO_CONTEXT`; always return true. -/
def EglHandles.clear_current (_e : EglHandles) (cur : Nat) : SwitchResult :=
  if cur ≠ EGL_NO_CONTEXT then ⟨true, EGL_NO_CONTEXT, 1⟩ else ⟨true, cur, 0⟩

/-- `Egl::swap_buffers`: calls `eglSwapBuffers` and always returns true;
the current context is untouched and no context switch happens. -/
def EglHandles.swap_buffers (_e : EglHandles) (cur : Nat) : SwitchResult :=
  ⟨true, cur, 0⟩

/-- `Egl::make_resource_current`: the source guard compares the current
context against `context_` (not `resource_context_`), then installs
`resource_context_`; always returns true. -/
def EglHandles.make_resource_current (e : EglHandles) (cur : Nat) :
    SwitchResult :=
  if cur ≠ e.context then ⟨true, e.resource_context, 1⟩ else ⟨true, cur, 0⟩

/-- `Egl::make_texture_current`: if the current context differs from
`texture_context_`, switch to `texture_context_`; always return true. -/
def EglHandles.make_texture_current (e : EglHandles) (cur : Nat) :
    SwitchResult :=
  if cur ≠ e.texture_context then ⟨true, e.texture_context, 1⟩
  else ⟨true, cur, 0⟩

/-- Handles of an `Egl` object whose three contexts received the distinct
native handles 1, 2, 3 (as successive `eglCreateContext` results). -/
def sampleHandles : EglHandles :=
  { context := 1, resource_context := 2, texture_context := 3 }

/-! ## Egl construction (unnamed EGL source, `Egl::Egl`) -/

/-- The `std::runtime_error`s the `Egl` constructor can raise, one per
`throw` site. -/
inductive EglError
  | initFailed
  | bindApiFailed
  | getConfigsFailed
  | chooseConfigFailed
  | getConfigAttribFailed
  deriving Repr, DecidableEq

/-- Field `int buffer_size_ = 24` of class `Egl` (egl.h). -/
def buffer_size_ : Int := 24

/-- The constructor's config loop: walk the configs returned by
`eglChooseConfig` in server order, querying `EGL_BUFFER_SIZE` for each
(`none` models an `eglGetConfigAttrib` failure, which throws); select the
first config whose size satisfies `buffer_size_ <= size` and stop
(`break`); select nothing if no config qualifies.  `k` is the index of
the first remaining config. -/
def selectConfig (bufferSize : Int) :
    Nat → List (Option Int) → Except EglError (Option Nat)
  | _, [] => Except.ok none
  | _, none :: _ => Except.error EglError.getConfigAttribFailed
  | k, some size :: rest =>
      if bufferSize ≤ size then Except.ok (some k)
      else selectConfig bufferSize (k + 1) rest

/-- Outcomes of the EGL calls made by `Egl::Egl`, supplied by the
environment: the checked boolean results of `eglInitialize`,
`eglBindAPI`, `eglGetConfigs` and `eglChooseConfig`, the per-config
`EGL_BUFFER_SIZE` query results, and whether each of the three
`eglCreateContext` calls yields a valid context. -/
structure EglEnv where
  init_ok : Bool
  bind_api_ok : Bool
  get_configs_ok : Bool
  choose_config_ok : Bool
  config_attribs : List (Option Int)
  create_context_ok : Bool
  create_resource_ok : Bool
  create_texture_ok : Bool
  deriving Repr, DecidableEq

/-- The state an `Egl` object holds after a constructor run that did not
throw: the selected config index (`none` when `config_` kept its
value-initialised default) and the three context handles
(`EGL_NO_CONTEXT` when the corresponding `eglCreateContext` failed). -/
structure EglInit where
  config : Option Nat
  context : Nat
  resource_context : Nat
  texture_context : Nat
  deriving Repr, DecidableEq

/-- `Egl::Egl` (constructor): throws when `eglInitialize`, `eglBindAPI`,
`eglGetConfigs`, `eglChooseConfig` or an `eglGetConfigAttrib` inside the
config loop fails; the results of the three `eglCreateContext` calls are
stored without being checked (handles 1, 2, 3 model fresh valid
contexts, `EGL_NO_CONTEXT` a failed creation). -/
def Egl.construct (env : EglEnv) : Except EglError EglInit :=
  if !env.init_ok then Except.error EglError.initFailed
  else if !env.bind_api_ok then Except.error EglError.bindApiFailed
  else if !env.get_configs_ok then Except.error EglError.getConfigsFailed
  else if !env.choose_config_ok then Except.error EglError.chooseConfigFailed
  else
    match selectConfig buffer_size_ 0 env.config_attribs with
    | Except.error e => Except.error e
    | Except.ok cfg =>
        Except.ok
          { config := cfg
            context := if env.create_context_ok then 1 else EGL_NO_CONTEXT
            resource_context :=
              if env.create_resource_ok then 2 else EGL_NO_CONTEXT
            texture_context :=
              if env.create_texture_ok then 3 else EGL_NO_CONTEXT }

/-- Whether the config loop throws: the attribute list contains a failed
`eglGetConfigAttrib` query before any acceptable config. -/
def attribFailsFirst : List (Option Int) → Bool
  | [] => false
  | none :: _ => true
  | some size :: rest =>
      if buffer_size_ ≤ size then false else attribFailsFirst rest

/-- Whether an `Except`-valued constructor run returned normally. -/
def exceptOk {ε α : Type} : Except ε α → Bool
  | Except.ok _ => true
  | Except.error _ => false

lemma selectConfig_ok_iff (sizes : List (Option Int)) :
    ∀ k, exceptOk (selectConfig buffer_size_ k sizes)
          = !attribFailsFirst sizes := by
  induction sizes with
  | nil => intro k; rfl
  | cons head rest ih =>
      intro k
      cases head with
      | none => rfl
      | some size =>
          simp only [selectConfig, attribFailsFirst]
          split
          · rfl
          · exact ih (k + 1)

lemma Egl.construct_ok (env : EglEnv) :
    exceptOk (Egl.construct env) =
      (env.init_ok && env.bind_api_ok && env.get_configs_ok &&
        env.choose_config_ok && !attribFailsFirst env.config_attribs) := by
  unfold Egl.construct
  cases hi : env.init_ok <;> cases hb : env.bind_api_ok <;>
    cases hg : env.get_configs_ok <;> cases hc : env.choose_config_ok <;>
    simp only [Bool.not_true, Bool.not_false, if_true, if_false,
      Bool.true_and, Bool.false_and, Bool.and_true, Bool.and_false] <;>
    try rfl
  rw [← selectConfig_ok_iff env.config_attribs 0]
  cases h : selectConfig buffer_size_ 0 env.config_attribs <;>
    simp [h, exceptOk]

lemma selectConfig_first_fit (bs : Int) :
    ∀ (sizes : List (Option Int)) (k i : Nat) (s : Int),
      sizes.get? i = some (some s) → bs ≤ s →
      (∀ j, j < i → ∃ t, sizes.get? j = some (some t) ∧ t < bs) →
      selectConfig bs k sizes = Except.ok (some (k + i)) := by
  intro sizes
  induction sizes with
  | nil => intro k i s hget; simp at hget
  | cons head rest ih =>
      intro k i s hget hs hbefore
      cases i with
      | zero =>
          simp only [List.get?] at hget
          cases hget
          simp only [selectConfig, if_pos hs, Nat.add_zero]
      | succ i =>
          obtain ⟨t, ht, htlt⟩ := hbefore 0 (Nat.succ_pos i)
          simp only [List.get?] at ht
          cases ht
          simp only [selectConfig, if_neg (not_le.mpr htlt)]
          have := ih (k + 1) i s hget hs
            (fun j hj => by
              have := hbefore (j + 1) (Nat.succ_lt_succ hj)
              simpa using this)
          rw [this, Nat.add_assoc, Nat.add_comm 1 i]

/-- An environment in which every checked EGL call succeeds, one config
with buffer size exactly 24 is enumerated, but the first
`eglCreateContext` fails. -/
def contextFailEnv : EglEnv :=
  { init_ok := true, bind_api_ok := true, get_configs_ok := true,
    choose_config_ok := true, config_attribs := [some 24],
    create_context_ok := false, create_resource_ok := true,
    create_texture_ok := true }

/-! ## XdgWm shell handshake (src/window_manager/xdg_wm.cc) -/

/-- `enum xdg_toplevel_state` values used by the configure handler:
maximized = 1, fullscreen = 2, resizing = 3, activated = 4. -/
def XDG_TOPLEVEL_STATE_MAXIMIZED : Nat := 1

def XDG_TOPLEVEL_STATE_FULLSCREEN : Nat := 2

def XDG_TOPLEVEL_STATE_RESIZING : Nat := 3

def XDG_TOPLEVEL_STATE_ACTIVATED : Nat := 4

/-- A width/height pair (the anonymous structs `geometry_` and
`window_size_` of class `XdgWm`; `int32_t` modelled as `Int`). -/
@[ext]
structure WmSize where
  width : Int
  height : Int
  deriving Repr, DecidableEq

/-- The mutable state of an `XdgWm` object: the four toplevel state
flags, the handshake flags, whether the shell global has been bound, and
the two sizes. -/
@[ext]
structure XdgWmState where
  fullscreen : Bool
  maximized : Bool
  resize : Bool
  activated : Bool
  wait_for_configure : Bool
  running : Bool
  shell_bound : Bool
  geometry : WmSize
  window_size : WmSize
  deriving Repr, DecidableEq

/-- `XdgWm::XdgWm`: all fields are value-initialised (false / zero), then
the constructor sets `wait_for_configure_ = true`. -/
def XdgWmState.init : XdgWmState :=
  { fullscreen := false, maximized := false, resize := false,
    activated := false, wait_for_configure := true, running := false,
    shell_bound := false, geometry := ⟨0, 0⟩, window_size := ⟨0, 0⟩ }

/-- One iteration of the `WL_ARRAY_FOR_EACH` switch in
`XdgWm::handle_toplevel_configure`: set the flag matching the state
value, ignore unknown values. -/
def applyState (w : XdgWmState) (st : Nat) : XdgWmState :=
  if st = XDG_TOPLEVEL_STATE_FULLSCREEN then { w with fullscreen := true }
  else if st = XDG_TOPLEVEL_STATE_MAXIMIZED then { w with maximized := true }
  else if st = XDG_TOPLEVEL_STATE_RESIZING then { w with resize := true }
  else if st = XDG_TOPLEVEL_STATE_ACTIVATED then { w with activated := true }
  else w

/-- `XdgWm::handle_toplevel_configure` (xdg_wm.cc lines 180-235): return
unchanged if either dimension is zero; else reset the four flags, set
them from the delivered state array, then update `window_size_` and
`geometry_` according to the sign of the dimensions and the
fullscreen/maximized flags. -/
def handle_toplevel_configure (w : XdgWmState) (width height : Int)
    (states : List Nat) : XdgWmState :=
  if width = 0 ∨ height = 0 then w
  else
    let w1 := { w with fullscreen := false, maximized := false,
                       resize := false, activated := false }
    let w2 := states.foldl applyState w1
    if 0 < width ∧ 0 < height then
      let w3 := if !w2.fullscreen && !w2.maximized then
          { w2 with window_size := ⟨width, height⟩ }
        else w2
      { w3 with geometry := ⟨width, height⟩ }
    else
      if !w2.fullscreen && !w2.maximized then
        { w2 with geometry := w2.window_size }
      else w2

/-- Whether a state value occurs in the delivered state array. -/
def hasState (states : List Nat) (v : Nat) : Bool :=
  states.any (fun s => s == v)

/-- Written from the amended claim C3: a zero dimension makes the call a
no-op; otherwise the four flags are recomputed solely from the delivered
state array (absent flags become false); geometry is set to the delivered
size when both dimensions are positive (also updating the nominal window
size unless fullscreen or maximized was delivered), and otherwise
geometry is reset to the nominal window size only when neither
fullscreen nor maximized was delivered, being retained otherwise. -/
def specToplevelConfigure (w : XdgWmState) (width height : Int)
    (states : List Nat) : XdgWmState :=
  if width = 0 ∨ height = 0 then w
  else
    let fs := hasState states XDG_TOPLEVEL_STATE_FULLSCREEN
    let mx := hasState states XDG_TOPLEVEL_STATE_MAXIMIZED
    let rs := hasState states XDG_TOPLEVEL_STATE_RESIZING
    let ac := hasState states XDG_TOPLEVEL_STATE_ACTIVATED
    let base := { w with fullscreen := fs, maximized := mx,
                         resize := rs, activated := ac }
    if 0 < width ∧ 0 < height then
      { base with
        geometry := ⟨width, height⟩
        window_size := if !fs && !mx then ⟨width, height⟩
          else w.window_size }
    else if !fs && !mx then { base with geometry := w.window_size }
    else base

lemma applyState_fields (w : XdgWmState) (st : Nat) :
    (applyState w st).fullscreen
        = (w.fullscreen || st == XDG_TOPLEVEL_STATE_FULLSCREEN) ∧
    (applyState w st).maximized
        = (w.maximized || st == XDG_TOPLEVEL_STATE_MAXIMIZED) ∧
    (applyState w st).resize
        = (w.resize || st == XDG_TOPLEVEL_STATE_RESIZING) ∧
    (applyState w st).activated
        = (w.activated || st == XDG_TOPLEVEL_STATE_ACTIVATED) ∧
    (applyState w st).wait_for_configure = w.wait_for_configure ∧
    (applyState w st).running = w.running ∧
    (applyState w st).shell_bound = w.shell_bound ∧
    (applyState w st).geometry = w.geometry ∧
    (applyState w st).window_size = w.window_size := by
  unfold applyState XDG_TOPLEVEL_STATE_FULLSCREEN XDG_TOPLEVEL_STATE_MAXIMIZED
    XDG_TOPLEVEL_STATE_RESIZING XDG_TOPLEVEL_STATE_ACTIVATED
  split_ifs with h1 h2 h3 h4 <;> subst_vars <;> simp
  exact ⟨fun h => absurd h (by omega), fun h => absurd h (by omega),
    fun h => absurd h (by omega), fun h => absurd h (by omega)⟩

lemma foldl_applyState_fields (states : List Nat) :
    ∀ w : XdgWmState,
      (states.foldl applyState w).fullscreen
          = (w.fullscreen || hasState states XDG_TOPLEVEL_STATE_FULLSCREEN) ∧
      (states.foldl applyState w).maximized
          = (w.maximized || hasState states XDG_TOPLEVEL_STATE_MAXIMIZED) ∧
      (states.foldl applyState w).resize
          = (w.resize || hasState states XDG_TOPLEVEL_STATE_RESIZING) ∧
      (states.foldl applyState w).activated
          = (w.activated || hasState states XDG_TOPLEVEL_STATE_ACTIVATED) ∧
      (states.foldl applyState w).wait_for_configure = w.wait_for_configure ∧
      (states.foldl applyState w).running = w.running ∧
      (states.foldl applyState w).shell_bound = w.shell_bound ∧
      (states.foldl applyState w).geometry = w.geometry ∧
      (states.foldl applyState w).window_size = w.window_size := by
  induction states with
  | nil => intro w; simp [hasState]
  | cons st rest ih =>
      intro w
      have happ := applyState_fields w st
      have hrest := ih (applyState w st)
      simp only [List.foldl_cons]
      refine ⟨?_, ?_, ?_, ?_, ?_, ?_, ?_, ?_, ?_⟩ <;>
        simp [hrest.1, hrest.2.1, hrest.2.2.1, hrest.2.2.2.1,
          hrest.2.2.2.2.1, hrest.2.2.2.2.2.1, hrest.2.2.2.2.2.2.1,
          hrest.2.2.2.2.2.2.2.1, hrest.2.2.2.2.2.2.2.2,
          happ.1, happ.2.1, happ.2.2.1, happ.2.2.2.1, happ.2.2.2.2.1,
          happ.2.2.2.2.2.1, happ.2.2.2.2.2.2.1, happ.2.2.2.2.2.2.2.1,
          happ.2.2.2.2.2.2.2.2, hasState, Bool.or_assoc]

/-- An `XdgWm` that has already received a valid configure: geometry
(100, 100), nominal window size (200, 200). -/
def priorW : XdgWmState :=
  { XdgWmState.init with geometry := ⟨100, 100⟩, window_size := ⟨200, 200⟩ }

/-- The events delivered to an `XdgWm` object by its listeners:
registry global announcements (flag: is it `xdg_wm_base`?), registry
removals, `xdg_wm_base` pings, `xdg_surface` configures, toplevel
configures and toplevel closes. -/
inductive XdgEvent
  | registry_global (is_wm_base : Bool)
  | registry_global_remove
  | wm_base_ping (serial : Nat)
  | surface_configure (serial : Nat)
  | toplevel_configure (width height : Int) (states : List Nat)
  | toplevel_close
  deriving Repr, DecidableEq

/-- The requests an `XdgWm` handler sends back to the server. -/
inductive XdgRequest
  | bind_shell
  | pong (serial : Nat)
  | ack_configure (serial : Nat)
  deriving Repr, DecidableEq

/-- Dispatch one event to the matching `XdgWm` handler
(`registry_handle_global`, `xdg_wm_base_ping`,
`handle_xdg_surface_configure`, `handle_toplevel_configure`,
`handle_toplevel_close`), returning the new state and the requests the
handler sent.  `handle_xdg_surface_configure` first calls
`xdg_surface_ack_configure(serial)` and then clears
`wait_for_configure_`. -/
def XdgWmState.step (w : XdgWmState) :
    XdgEvent → XdgWmState × List XdgRequest
  | XdgEvent.registry_global is_wm_base =>
      if is_wm_base then ({ w with shell_bound := true },
        [XdgRequest.bind_shell])
      else (w, [])
  | XdgEvent.registry_global_remove => (w, [])
  | XdgEvent.wm_base_ping serial => (w, [XdgRequest.pong serial])
  | XdgEvent.surface_configure serial =>
      ({ w with wait_for_configure := false },
        [XdgRequest.ack_configure serial])
  | XdgEvent.toplevel_configure width height states =>
      (handle_toplevel_configure w width height states, [])
  | XdgEvent.toplevel_close => ({ w with running := false }, [])

/-- Process a sequence of events from a given state. -/
def XdgWmState.runTrace (w : XdgWmState) (es : List XdgEvent) : XdgWmState :=
  es.foldl (fun s e => (s.step e).1) w

/-- Whether an event is a surface-configure (the one event whose handler
clears `wait_for_configure_`). -/
def isSurfaceConfigure : XdgEvent → Bool
  | XdgEvent.surface_configure _ => true
  | _ => false

lemma handle_toplevel_configure_wait (w : XdgWmState) (width height : Int)
    (states : List Nat) :
    (handle_toplevel_configure w width height states).wait_for_configure
      = w.wait_for_configure := by
  unfold handle_toplevel_configure
  have hf := (foldl_applyState_fields states
    { w with fullscreen := false, maximized := false, resize := false,
             activated := false }).2.2.2.2.1
  dsimp only at hf
  split
  · rfl
  · dsimp only
    split <;> [skip; skip] <;> split <;> simp [hf]

lemma step_wait (w : XdgWmState) (e : XdgEvent) :
    (w.step e).1.wait_for_configure
      = (w.wait_for_configure && !isSurfaceConfigure e) := by
  cases e <;>
    simp [XdgWmState.step, isSurfaceConfigure,
      handle_toplevel_configure_wait]
  split <;> rfl

lemma runTrace_wait (es : List XdgEvent) :
    ∀ w : XdgWmState,
      (w.runTrace es).wait_for_configure
        = (w.wait_for_configure && !es.any isSurfaceConfigure) := by
  induction es with
  | nil => intro w; simp [XdgWmState.runTrace]
  | cons e rest ih =>
      intro w
      have hstep := step_wait w e
      calc (w.runTrace (e :: rest)).wait_for_configure
          = (((w.step e).1).runTrace rest).wait_for_configure := rfl
        _ = ((w.step e).1.wait_for_configure && !rest.any isSurfaceConfigure) :=
            ih (w.step e).1
        _ = (w.wait_for_configure && !(e :: rest).any isSurfaceConfigure) := by
            rw [hstep]
            simp [Bool.and_assoc]

/-! ## Window frame-callback loop (src/window/window.cc) -/

/-- The observable effects of the frame-loop methods: destruction of a
`wl_callback`, an invocation of the registered draw callback, a new
`wl_surface_frame` subscription, a `wl_surface_commit`. -/
inductive FrameAction
  | destroy_callback (id : Nat)
  | draw (time : Nat)
  | surface_frame (id : Nat)
  | commit
  deriving Repr, DecidableEq

/-- State of a `Window`: the outstanding frame-callback handle
(`wl_callback_`, `none` for null), a fresh-handle generator standing for
the server's allocation of new `wl_callback` objects, and whether a draw
callback was registered (`draw_callback_` non-empty). -/
structure WindowState where
  wl_callback : Option Nat
  next_id : Nat
  has_draw_callback : Bool
  deriving Repr, DecidableEq

/-- `Window::on_frame` (window.cc lines 81-100): null out `wl_callback_`,
destroy the fired callback handle if one was passed, invoke the draw
callback if registered, subscribe a fresh frame callback, store it in
`wl_callback_`, and commit the surface. -/
def WindowState.on_frame (w : WindowState) (callback : Option Nat)
    (time : Nat) : WindowState × List FrameAction :=
  let destroyActs := match callback with
    | some id => [FrameAction.destroy_callback id]
    | none => []
  let drawActs := if w.has_draw_callback then [FrameAction.draw time] else []
  let newId := w.next_id
  ({ w with wl_callback := some newId, next_id := w.next_id + 1 },
    destroyActs ++ drawActs ++
      [FrameAction.surface_frame newId, FrameAction.commit])

/-- `Window::stop_frames` (window.cc lines 65-69): destroy the
outstanding `wl_callback_` if there is one.  The method is const: the
field itself is left unchanged. -/
def WindowState.stop_frames (w : WindowState) :
    WindowState × List FrameAction :=
  match w.wl_callback with
  | some id => (w, [FrameAction.destroy_callback id])
  | none => (w, [])

/-- `Window::start_frames` (window.cc lines 56-59): `stop_frames()` then
`on_frame(this, nullptr, 0)` — one synthesized frame invocation with a
null fired-callback handle and time 0. -/
def WindowState.start_frames (w : WindowState) :
    WindowState × List FrameAction :=
  let s := w.stop_frames
  let f := s.1.on_frame none 0
  (f.1, s.2 ++ f.2)

/-- How many draw-callback invocations an action list contains. -/
def drawCount (acts : List FrameAction) : Nat :=
  acts.countP (fun a => match a with
    | FrameAction.draw _ => true
    | _ => false)

/-! ## Cursor (src/seat/pointer.cc, `Cursor::enable`) -/

/-- The theme image names the kind table maps to: `left_ptr`, `hand`,
`pirate`. -/
inductive CursorName
  | left_ptr
  | hand
  | pirate
  deriving Repr, DecidableEq

/-- The kind-string table of `Cursor::enable`: basic and text map to
`left_ptr`, click to `hand`, forbidden to `pirate`; anything else is
unrecognized. -/
def cursorNameFor (kind : String) : Option CursorName :=
  if kind = "basic" then some CursorName.left_ptr
  else if kind = "click" then some CursorName.hand
  else if kind = "text" then some CursorName.left_ptr
  else if kind = "forbidden" then some CursorName.pirate
  else none

/-- A theme cursor's first image: hot-spot, size, and whether
`wl_cursor_image_get_buffer` yields a valid buffer. -/
structure CursorImage where
  hotspot_x : Nat
  hotspot_y : Nat
  width : Nat
  height : Nat
  buffer_valid : Bool
  deriving Repr, DecidableEq

/-- The fields of a `Cursor` object that `enable` reads: the global
enable flag, nullness of the pointer and surface handles, and the
serial used for `wl_pointer_set_cursor`. -/
structure CursorState where
  enable_ : Bool
  pointer_null : Bool
  surface_null : Bool
  serial : Nat
  deriving Repr, DecidableEq

/-- The requests `Cursor::enable` issues. -/
inductive CursorAction
  | set_cursor (serial : Nat) (hotspot_x hotspot_y : Nat)
  | attach
  | damage (width height : Nat)
  | commit
  deriving Repr, DecidableEq

/-- `Cursor::enable` (pointer.cc lines 345-394); `theme` is the lookup
`wl_cursor_theme_get_cursor` (`none` = image missing from the theme).
Returns the `bool` result and the requests sent. -/
def Cursor.enable (c : CursorState)
    (theme : CursorName → Option CursorImage) (kind : String) :
    Bool × List CursorAction :=
  if !c.enable_ then
    (true, [CursorAction.set_cursor c.serial 0 0, CursorAction.damage 0 0,
            CursorAction.commit])
  else if c.pointer_null then (true, [])
  else
    match cursorNameFor kind with
    | none => (false, [])
    | some name =>
        match theme name with
        | none => (false, [])
        | some img =>
            if img.buffer_valid && !c.surface_null then
              (true,
                [CursorAction.set_cursor c.serial img.hotspot_x img.hotspot_y,
                 CursorAction.attach,
                 CursorAction.damage img.width img.height,
                 CursorAction.commit])
            else (false, [])

/-- Written from the amended claim C6: the failure condition of
`Cursor::enable` — the kind is unrecognized, the theme image is
missing, or the image buffer is invalid / the cursor surface is null. -/
def cursorLookupFails (c : CursorState)
    (theme : CursorName → Option CursorImage) (kind : String) : Bool :=
  match cursorNameFor kind with
  | none => true
  | some name =>
      match theme name with
      | none => true
      | some img => !img.buffer_valid || c.surface_null

/-- A `Cursor` whose pointer handle is null but whose rendering is
enabled. -/
def noPointerCursor : CursorState :=
  { enable_ := true, pointer_null := true, surface_null := false,
    serial := 0 }

/-- A theme with no images at all. -/
def emptyTheme : CursorName → Option CursorImage := fun _ => none

/-! ## WindowManager::dispatch (unnamed window_manager source) -/

/-- The platform `EAGAIN` error number. -/
def EAGAIN : Nat := 11

/-- The I/O outcomes `WindowManager::dispatch` observes: the counts
returned by `wl_display_dispatch_pending` in the prepare-read loop, the
result of `wl_display_flush` and its `errno` on failure, the `poll`
result (positive = ready, 0 = timeout, negative = failure) with its
`errno` and the `POLLIN` bit, and the count dispatched after
`wl_display_read_events`. -/
structure DispatchEnv where
  pending_counts : List Nat
  flush_fails : Bool
  flush_errno : Nat
  poll_result : Int
  poll_errno : Nat
  pollin : Bool
  read_count : Nat
  deriving Repr, DecidableEq

/-- `WindowManager::dispatch` (window_manager source lines 169-203):
drain the GLib context, accumulate `dispatch_count` in the prepare-read
loop, return `-errno` if the flush fails with an errno other than
`EAGAIN`, poll, and on `ret > 0` return the count (reading events first
when `POLLIN` is set), on `ret == 0` return the count, otherwise return
`-errno`. -/
def WindowManager.dispatch (env : DispatchEnv) : Int :=
  let dispatch_count : Int := (env.pending_counts.sum : Nat)
  if env.flush_fails && (env.flush_errno != EAGAIN) then
    -(env.flush_errno : Int)
  else if 0 < env.poll_result then
    if env.pollin then dispatch_count + (env.read_count : Int)
    else dispatch_count
  else if env.poll_result = 0 then dispatch_count
  else -(env.poll_errno : Int)

end Waypp

/-- C1: after any `Seat::handle_capabilities` notification, a live
pointer/keyboard/touch handler exists if and only if the corresponding
capability bit is set in the delivered mask; a handler is constructed by
the call exactly when its bit is set and no handler existed before (so no
second live handler is ever constructed for an existing capability); and
consequently, along every notification sequence from the freshly
constructed seat, the live handlers after each notification match the
bits of the most recently delivered mask. -/
theorem Waypp.seat_capability_invariant :
    (∀ (s : Waypp.SeatState) (caps : Nat),
      ((s.handle_capabilities caps).state.pointer = caps.testBit 0 ∧
       (s.handle_capabilities caps).state.keyboard = caps.testBit 1 ∧
       (s.handle_capabilities caps).state.touch = caps.testBit 2) ∧
      ((s.handle_capabilities caps).created_pointer
          = (caps.testBit 0 && !s.pointer) ∧
       (s.handle_capabilities caps).created_keyboard
          = (caps.testBit 1 && !s.keyboard) ∧
       (s.handle_capabilities caps).created_touch
          = (caps.testBit 2 && !s.touch))) ∧
    (∀ (trace : List Nat) (caps : Nat),
      (Waypp.SeatState.init.processTrace (trace ++ [caps])).pointer
          = caps.testBit 0 ∧
      (Waypp.SeatState.init.processTrace (trace ++ [caps])).keyboard
          = caps.testBit 1 ∧
      (Waypp.SeatState.init.processTrace (trace ++ [caps])).touch
          = caps.testBit 2) := by
  constructor
  · intro s caps
    refine ⟨⟨s.handle_capabilities_pointer caps,
             s.handle_capabilities_keyboard caps,
             s.handle_capabilities_touch caps⟩, ?_, ?_, ?_⟩ <;>
      simp [Waypp.SeatState.handle_capabilities]
  · intro trace caps
    rw [Waypp.SeatState.processTrace_append_single]
    exact ⟨Waypp.SeatState.handle_capabilities_pointer _ caps,
           Waypp.SeatState.handle_capabilities_keyboard _ caps,
           Waypp.SeatState.handle_capabilities_touch _ caps⟩

/-- C2 (code bug): `Egl::make_resource_current` guards its switch on
`context_` instead of `resource_context_`.  With contexts (1, 2, 3) and
the resource context (handle 2) already current, the call still performs
an underlying `eglMakeCurrent` switch; and called twice in a row starting
from an unrelated current context (handle 5) it performs the underlying
switch both times, contradicting the claimed at-most-once behaviour
(and the function's own documentation comment). -/
theorem Waypp.make_resource_current_redundant_switch :
    (Waypp.sampleHandles.make_resource_current
        Waypp.sampleHandles.resource_context).switches = 1 ∧
    ((Waypp.sampleHandles.make_resource_current 5).switches +
      (Waypp.sampleHandles.make_resource_current
        (Waypp.sampleHandles.make_resource_current 5).current).switches) = 2 := by
  decide

/-- C3 counterexample: after a prior valid configure (geometry
(100, 100), nominal size (200, 200)), a toplevel-configure with
width = -1, height = 5 and state array [fullscreen] leaves geometry at
(100, 100): it is retained, not reset to the nominal window size as the
claim states for every non-zero delivery without two positive
dimensions. -/
theorem Waypp.toplevel_configure_fullscreen_retains_geometry :
    (Waypp.handle_toplevel_configure Waypp.priorW (-1) 5
        [Waypp.XDG_TOPLEVEL_STATE_FULLSCREEN]).geometry
      = ⟨100, 100⟩ ∧
    Waypp.priorW.window_size = ⟨200, 200⟩ ∧
    (Waypp.handle_toplevel_configure Waypp.priorW (-1) 5
        [Waypp.XDG_TOPLEVEL_STATE_FULLSCREEN]).geometry
      ≠ Waypp.priorW.window_size := by
  decide

/-- C3 (amended): `XdgWm::handle_toplevel_configure` equals the function
written from the amended claim: zero width or height makes the call a
no-op; otherwise the four state flags are recomputed solely from the
delivered state array (absent flags become false), geometry is set to
the delivered size when both dimensions are positive, and otherwise
geometry is reset to the nominal window size only when neither
fullscreen nor maximized was delivered (being retained otherwise). -/
theorem Waypp.toplevel_configure_matches_amended_spec :
    ∀ (w : Waypp.XdgWmState) (width height : Int) (states : List Nat),
      Waypp.handle_toplevel_configure w width height states
        = Waypp.specToplevelConfigure w width height states := by
  intro w width height states
  unfold Waypp.handle_toplevel_configure Waypp.specToplevelConfigure
  obtain ⟨h1, h2, h3, h4, h5, h6, h7, h8, h9⟩ :=
    Waypp.foldl_applyState_fields states
      { w with fullscreen := false, maximized := false, resize := false,
               activated := false }
  dsimp only at h1 h2 h3 h4 h5 h6 h7 h8 h9
  simp only [Bool.false_or] at h1 h2 h3 h4
  dsimp only
  have hw2 : List.foldl Waypp.applyState
      { w with fullscreen := false, maximized := false, resize := false,
               activated := false } states
      = { w with
            fullscreen :=
              Waypp.hasState states Waypp.XDG_TOPLEVEL_STATE_FULLSCREEN,
            maximized :=
              Waypp.hasState states Waypp.XDG_TOPLEVEL_STATE_MAXIMIZED,
            resize := Waypp.hasState states Waypp.XDG_TOPLEVEL_STATE_RESIZING,
            activated :=
              Waypp.hasState states Waypp.XDG_TOPLEVEL_STATE_ACTIVATED } :=
    Waypp.XdgWmState.ext h1 h2 h3 h4 h5 h6 h7 h8 h9
  rw [hw2]
  split_ifs <;> rfl

/-- C9: from construction (`wait_for_configure_ = true`), the
surface-configure handler is the only event handler that clears
`wait_for_configure_`, and it acknowledges with the delivered serial:
(i) per step, the flag survives exactly the non-surface-configure
events; (ii) the surface-configure step sends
`xdg_surface_ack_configure(serial)` and results in the flag cleared;
(iii) along any event sequence from construction the flag is false
exactly when a surface-configure occurred. -/
theorem Waypp.surface_configure_sole_wait_clear :
    (∀ (w : Waypp.XdgWmState) (e : Waypp.XdgEvent),
       (w.step e).1.wait_for_configure
         = (w.wait_for_configure && !Waypp.isSurfaceConfigure e)) ∧
    (∀ (w : Waypp.XdgWmState) (serial : Nat),
       w.step (Waypp.XdgEvent.surface_configure serial)
         = ({ w with wait_for_configure := false },
            [Waypp.XdgRequest.ack_configure serial])) ∧
    Waypp.XdgWmState.init.wait_for_configure = true ∧
    (∀ es : List Waypp.XdgEvent,
       (Waypp.XdgWmState.init.runTrace es).wait_for_configure
         = !es.any Waypp.isSurfaceConfigure) := by
  refine ⟨Waypp.step_wait, fun w serial => rfl, rfl, fun es => ?_⟩
  rw [Waypp.runTrace_wait es Waypp.XdgWmState.init]
  simp [Waypp.XdgWmState.init]

/-- C4: `Window::start_frames` emits the registered draw callback
exactly once in its synchronous, synthesized frame invocation (so the
first draw happens before any server-driven callback can be dispatched)
and leaves a fresh frame subscription armed; and `Window::stop_frames`
with no outstanding subscription emits nothing and leaves the state
unchanged. -/
theorem Waypp.start_frames_one_draw_stop_frames_noop :
    ∀ w : Waypp.WindowState,
      (Waypp.drawCount (w.start_frames).2
          = if w.has_draw_callback then 1 else 0) ∧
      ((w.start_frames).1.wl_callback = some w.next_id) ∧
      (w.wl_callback = none → w.stop_frames = (w, [])) := by
  intro w
  refine ⟨?_, ?_, ?_⟩
  · unfold Waypp.WindowState.start_frames Waypp.WindowState.stop_frames
      Waypp.WindowState.on_frame Waypp.drawCount
    cases h : w.wl_callback <;> cases hd : w.has_draw_callback <;>
      simp [h, hd, List.countP, List.countP.go]
  · unfold Waypp.WindowState.start_frames Waypp.WindowState.stop_frames
      Waypp.WindowState.on_frame
    cases h : w.wl_callback <;> simp [h]
  · intro h
    unfold Waypp.WindowState.stop_frames
    rw [h]

/-- C4 witness: a window with a registered draw callback and no
outstanding subscription draws exactly once on `start_frames`, and its
`stop_frames` is a no-op. -/
theorem Waypp.start_frames_one_draw_stop_frames_noop_witness :
    Waypp.drawCount
        ((⟨none, 0, true⟩ : Waypp.WindowState).start_frames).2 = 1 ∧
      (⟨none, 0, true⟩ : Waypp.WindowState).stop_frames
        = (⟨none, 0, true⟩, []) := by
  have h := Waypp.start_frames_one_draw_stop_frames_noop ⟨none, 0, true⟩
  exact ⟨by simpa using h.1, h.2.2 rfl⟩

/-- C6 counterexample: a `Cursor` whose rendering is enabled but whose
pointer handle is null returns true from `enable` even for an
unrecognized kind — the claimed "false iff enabled and (kind invalid or
lookup/buffer failure)" does not hold. -/
theorem Waypp.cursor_enable_null_pointer_returns_true :
    Waypp.noPointerCursor.enable_ = true ∧
    Waypp.cursorNameFor ("bogus") = none ∧
    (Waypp.Cursor.enable Waypp.noPointerCursor Waypp.emptyTheme
        ("bogus")).1 = true := by
  refine ⟨rfl, rfl, rfl⟩

/-- C6 (amended): `Cursor::enable` returns false iff cursor rendering is
enabled, the pointer handle is non-null, and the kind is unrecognized,
the theme image is missing, or the image buffer is invalid / the cursor
surface is null; when rendering is globally disabled it commits an empty
(zero-sized, bufferless) cursor image and succeeds; when enabled with a
non-null pointer, a recognized kind, a present theme image, a valid
buffer and a non-null surface, it commits the theme image with its
hot-spot offset and returns true. -/
theorem Waypp.cursor_enable_characterisation :
    ∀ (c : Waypp.CursorState)
      (theme : Waypp.CursorName → Option Waypp.CursorImage)
      (kind : String),
      ((Waypp.Cursor.enable c theme kind).1 = false ↔
        (c.enable_ && !c.pointer_null &&
          Waypp.cursorLookupFails c theme kind) = true) ∧
      (c.enable_ = false →
        Waypp.Cursor.enable c theme kind
          = (true, [Waypp.CursorAction.set_cursor c.serial 0 0,
                    Waypp.CursorAction.damage 0 0,
                    Waypp.CursorAction.commit])) ∧
      (∀ (name : Waypp.CursorName) (img : Waypp.CursorImage),
        c.enable_ = true → c.pointer_null = false →
        Waypp.cursorNameFor kind = some name → theme name = some img →
        img.buffer_valid = true → c.surface_null = false →
        Waypp.Cursor.enable c theme kind
          = (true,
              [Waypp.CursorAction.set_cursor c.serial img.hotspot_x
                  img.hotspot_y,
               Waypp.CursorAction.attach,
               Waypp.CursorAction.damage img.width img.height,
               Waypp.CursorAction.commit])) := by
  intro c theme kind
  refine ⟨?_, ?_, ?_⟩
  · unfold Waypp.Cursor.enable Waypp.cursorLookupFails
    cases he : c.enable_ <;> cases hp : c.pointer_null <;> simp [he, hp]
    cases hk : Waypp.cursorNameFor kind <;> simp [hk]
    case some name =>
      cases ht : theme name <;> simp [ht]
      case some img =>
        cases hb : img.buffer_valid <;> cases hs : c.surface_null <;>
          simp [hb, hs]
  · intro he
    unfold Waypp.Cursor.enable
    simp [he]
  · intro name img he hp hk ht hb hs
    unfold Waypp.Cursor.enable
    simp [he, hp, hk, ht, hb, hs]

/-- C6 witness: with rendering enabled, a non-null pointer and surface,
kind "basic" and a theme whose `left_ptr` image is valid with hot-spot
(3, 4) and size 10 x 12, `enable` returns true and commits that image;
and the iff instance holds there. -/
theorem Waypp.cursor_enable_characterisation_witness :
    Waypp.Cursor.enable
        ⟨true, false, false, 7⟩
        (fun n => if n = Waypp.CursorName.left_ptr
          then some ⟨3, 4, 10, 12, true⟩ else none)
        ("basic")
      = (true, [Waypp.CursorAction.set_cursor 7 3 4,
                Waypp.CursorAction.attach,
                Waypp.CursorAction.damage 10 12,
                Waypp.CursorAction.commit]) :=
  (Waypp.cursor_enable_characterisation ⟨true, false, false, 7⟩
      (fun n => if n = Waypp.CursorName.left_ptr
        then some ⟨3, 4, 10, 12, true⟩ else none)
      ("basic")).2.2
    Waypp.CursorName.left_ptr ⟨3, 4, 10, 12, true⟩
    rfl rfl rfl rfl rfl rfl

/-- C5: `WindowManager::dispatch` returns a non-negative dispatched
count whenever the flush did not fail hard and the poll returns zero or
ready without `POLLIN` (so a zero timeout with no pending socket data
yields a non-negative value), and it returns the negated errno exactly
when the flush fails with an errno other than `EAGAIN` or the poll
itself fails. -/
theorem Waypp.dispatch_transient_nonneg_error_negative
    (env : Waypp.DispatchEnv)
    (hf : 0 < env.flush_errno) (hp : 0 < env.poll_errno) :
    ((env.flush_fails = true ∧ env.flush_errno ≠ Waypp.EAGAIN) →
      Waypp.WindowManager.dispatch env = -(env.flush_errno : Int)) ∧
    (¬(env.flush_fails = true ∧ env.flush_errno ≠ Waypp.EAGAIN) →
      (env.poll_result = 0 ∨ (0 < env.poll_result ∧ env.pollin = false)) →
      0 ≤ Waypp.WindowManager.dispatch env) ∧
    (¬(env.flush_fails = true ∧ env.flush_errno ≠ Waypp.EAGAIN) →
      env.poll_result < 0 →
      Waypp.WindowManager.dispatch env = -(env.poll_errno : Int)) ∧
    (Waypp.WindowManager.dispatch env < 0 ↔
      ((env.flush_fails = true ∧ env.flush_errno ≠ Waypp.EAGAIN) ∨
       (¬(env.flush_fails = true ∧ env.flush_errno ≠ Waypp.EAGAIN) ∧
         env.poll_result < 0))) := by
  have hsum : (0 : Int) ≤ (env.pending_counts.sum : Nat) :=
    Int.natCast_nonneg _
  have hread : (0 : Int) ≤ (env.read_count : Nat) := Int.natCast_nonneg _
  unfold Waypp.WindowManager.dispatch
  by_cases hflush : env.flush_fails = true ∧ env.flush_errno ≠ Waypp.EAGAIN
  · have hcond : (env.flush_fails && (env.flush_errno != Waypp.EAGAIN)) = true := by
      simp [hflush.1, bne_iff_ne, hflush.2]
    rw [if_pos hcond]
    refine ⟨fun _ => rfl, fun hc => absurd hflush hc,
      fun hc => absurd hflush hc, ?_⟩
    simp only [hflush, true_and, not_true_eq_false, false_and, or_false,
      iff_true]
    omega
  · have hcond : (env.flush_fails && (env.flush_errno != Waypp.EAGAIN)) = false := by
      cases hb : env.flush_fails
      · rfl
      · have : env.flush_errno = Waypp.EAGAIN := by
          by_contra hne
          exact hflush ⟨hb, hne⟩
        simp [this]
    rw [if_neg (by simp [hcond])]
    refine ⟨fun hc => absurd hc hflush, ?_, ?_, ?_⟩
    · rintro _ (h0 | ⟨hpos, hin⟩)
      · rw [if_neg (by omega), if_pos h0]
        exact hsum
      · rw [if_pos hpos, hin]
        simp only [Bool.false_eq_true, if_false]
        exact hsum
    · intro _ hneg
      rw [if_neg (by omega), if_neg (by omega)]
    · constructor
      · intro hlt
        by_cases hpos : 0 < env.poll_result
        · rw [if_pos hpos] at hlt
          exfalso
          cases hin : env.pollin <;> rw [hin] at hlt
          · simp only [Bool.false_eq_true, if_false] at hlt
            omega
          · simp only [if_true] at hlt
            omega
        · rw [if_neg hpos] at hlt
          by_cases h0 : env.poll_result = 0
          · rw [if_pos h0] at hlt
            omega
          · exact Or.inr ⟨hflush, by omega⟩
      · rintro (hc | ⟨_, hneg⟩)
        · exact absurd hc hflush
        · rw [if_neg (by omega), if_neg (by omega)]
          omega

/-- C5 witness: with a clean flush, a zero-result poll (timeout 0, no
pending data) and no pending queue entries, `dispatch` returns 0, a
non-negative count, and the negative-return characterisation holds. -/
theorem Waypp.dispatch_transient_nonneg_error_negative_witness :
    0 ≤ Waypp.WindowManager.dispatch
        ⟨[], false, 1, 0, 1, false, 0⟩ :=
  (Waypp.dispatch_transient_nonneg_error_negative
      ⟨[], false, 1, 0, 1, false, 0⟩
      (by norm_num) (by norm_num)).2.1
    (by simp) (Or.inl rfl)

/-- C7 counterexample: with every checked EGL call succeeding but
`eglCreateContext` failing (returning `EGL_NO_CONTEXT`), `Egl::Egl`
returns normally, storing the null context — context-creation failure
does not raise an error. -/
theorem Waypp.egl_construct_context_failure_no_throw :
    Waypp.Egl.construct Waypp.contextFailEnv =
      Except.ok
        { config := some 0, context := Waypp.EGL_NO_CONTEXT,
          resource_context := 2, texture_context := 3 } := by
  rfl

/-- C7 (amended): `Egl::Egl` raises an error exactly when display
initialization (`eglInitialize`), API binding (`eglBindAPI`), config
enumeration (`eglGetConfigs`/`eglChooseConfig`), or a buffer-size
attribute query inside the config loop fails; the results of the three
`eglCreateContext` calls are not checked, so context-creation failure
never raises. -/
theorem Waypp.egl_construct_error_characterisation :
    ∀ env : Waypp.EglEnv,
      Waypp.exceptOk (Waypp.Egl.construct env) = false ↔
        (env.init_ok = false ∨ env.bind_api_ok = false ∨
         env.get_configs_ok = false ∨ env.choose_config_ok = false ∨
         Waypp.attribFailsFirst env.config_attribs = true) := by
  intro env
  rw [Waypp.Egl.construct_ok env]
  cases env.init_ok <;> cases env.bind_api_ok <;>
    cases env.get_configs_ok <;> cases env.choose_config_ok <;>
    cases h : Waypp.attribFailsFirst env.config_attribs <;> simp [h]

/-- C8: the constructor's config loop walks the enumerated configs in
server-returned order and selects the first config whose
`EGL_BUFFER_SIZE` is at least the `buffer_size_` threshold, whose value
is 24, stopping there rather than searching for a best match. -/
theorem Waypp.egl_config_selection_first_acceptable
    (sizes : List (Option Int)) (i : Nat) (s : Int)
    (hget : sizes.get? i = some (some s)) (hs : Waypp.buffer_size_ ≤ s)
    (hbefore : ∀ j, j < i →
      ∃ t, sizes.get? j = some (some t) ∧ t < Waypp.buffer_size_) :
    Waypp.selectConfig Waypp.buffer_size_ 0 sizes = Except.ok (some i) ∧
      Waypp.buffer_size_ = 24 := by
  have := Waypp.selectConfig_first_fit Waypp.buffer_size_ sizes 0 i s hget hs
    hbefore
  rw [Nat.zero_add] at this
  exact ⟨this, rfl⟩

/-- C8 witness: among configs with buffer sizes 16, 24, 32 the loop
selects index 1, the first one whose size reaches 24, although index 2
would be a larger match. -/
theorem Waypp.egl_config_selection_first_acceptable_witness :
    Waypp.selectConfig Waypp.buffer_size_ 0 [some 16, some 24, some 32]
        = Except.ok (some 1) ∧
      Waypp.buffer_size_ = 24 :=
  Waypp.egl_config_selection_first_acceptable [some 16, some 24, some 32] 1 24
    rfl (by norm_num [Waypp.buffer_size_])
    (fun j hj => by
      have hj0 : j = 0 := by omega
      subst hj0
      exact ⟨16, rfl, by norm_num [Waypp.buffer_size_]⟩)

/-- C10: every one of the five boolean operations `make_current`,
`clear_current`, `swap_buffers`, `make_resource_current`,
`make_texture_current` returns true in every state: the underlying EGL
call's failure is never reported through the return value. -/
theorem Waypp.egl_bool_ops_always_true :
    ∀ (e : Waypp.EglHandles) (cur : Nat),
      (e.make_current cur).ret = true ∧
      (e.clear_current cur).ret = true ∧
      (e.swap_buffers cur).ret = true ∧
      (e.make_resource_current cur).ret = true ∧
      (e.make_texture_current cur).ret = true := by
  intro e cur
  refine ⟨?_, ?_, rfl, ?_, ?_⟩ <;>
    · simp only [Waypp.EglHandles.make_current, Waypp.EglHandles.clear_current,
        Waypp.EglHandles.make_resource_current,
        Waypp.EglHandles.make_texture_current]
      split <;> rfl
